import Mathlib

/-!
Verification of the hr-recruiting backend: a REST-to-GraphQL relay service.

The development shallowly embeds the Go source files
(internal/gateway/hubhrms.go, internal/handlers/health.go,
internal/handlers/applications.go, internal/services/upload.go and the
middleware/services files) as pure Lean functions.  External effects
(the upstream HTTP exchange, the JSON decode of the upstream body, the
storage put, the float parse) are represented by explicit outcome
parameters; everything the Go code computes itself is translated
directly.
-/

namespace HrRecruiting

/-- JSON values as decoded by encoding/json into interface\x7b\x7d:
nil, bool, number, string, []interface\x7b\x7d and map[string]interface\x7b\x7d.
Objects are association lists (the Go map content; keys are unique).
Numbers are modelled as integers: every numeric value the handlers
themselves create or inspect is an integer. -/
inductive Json where
  | null : Json
  | bool (b : Bool) : Json
  | num (n : Int) : Json
  | str (s : String) : Json
  | arr (items : List Json) : Json
  | obj (fields : List (String × Json)) : Json

/-- Test for the nil interface value (Go: resp.Data == nil). -/
def Json.isNull : Json → Bool
  | .null => true
  | _ => false

/-- First-match association-list lookup (Go map indexing on the decoded
object content; keys are unique in every list we build). -/
def alookup {α : Type} : List (String × α) → String → Option α
  | [], _ => none
  | (k, v) :: rest, key => if k = key then some v else alookup rest key

/-- Go map indexing with the zero value: a missing key yields nil. -/
def mapIndex (fields : List (String × Json)) (key : String) : Json :=
  (alookup fields key).getD Json.null

/-- Presence test used by the required-field loops: the comma-ok form
of Go map indexing. -/
def hasKey (fields : List (String × Json)) (key : String) : Bool :=
  (alookup fields key).isSome

/-- Go type assertion v.(string): succeeds exactly on string values. -/
def jsonAsString : Json → Option String
  | .str s => some s
  | _ => none

/- ----------------------------------------------------------------
   Gateway client (internal/gateway/hubhrms.go)
   ---------------------------------------------------------------- -/

/-- GraphQL error of the response envelope (gateway/hubhrms.go,
GraphQLError struct). -/
structure GraphQLError where
  message : String
  path : List Json
  extensions : List (String × Json)

/-- GraphQL response envelope (gateway/hubhrms.go, GraphQLResponse
struct).  data is nil-or-decoded-value, modelled as Json with
Json.null standing for nil. -/
structure GraphQLResponse where
  data : Json
  errors : List GraphQLError

/-- Outcome of the single upstream HTTP POST issued by
HubHRMSClient.Query, as observed by the client code: a transport
failure, or a reply with a status code and a body whose JSON decode
either fails (none) or yields an envelope (some). -/
inductive UpstreamHttp where
  | transportError (msg : String) : UpstreamHttp
  | reply (statusCode : Nat) (decoded : Option GraphQLResponse) : UpstreamHttp

/-- HubHRMSClient.Query (gateway/hubhrms.go lines 58-100): a transport
error or a non-200 status or a decode failure is an error; otherwise
the decoded envelope is returned unchanged.  A non-empty errors list
is only logged. -/
def clientQuery (up : UpstreamHttp) : Except String GraphQLResponse :=
  match up with
  | .transportError msg => .error ("failed to execute request: " ++ msg)
  | .reply statusCode decoded =>
    if statusCode ≠ 200 then
      .error ("Hub-HRMS returned status " ++ toString statusCode)
    else
      match decoded with
      | none => .error "failed to decode response"
      | some gqlResp => .ok gqlResp

/-- HubHRMSClient.Mutate (gateway/hubhrms.go lines 103-105): delegates
to Query. -/
def clientMutate (up : UpstreamHttp) : Except String GraphQLResponse :=
  clientQuery up

/- ----------------------------------------------------------------
   Go standard-library fragments used by the handlers
   ---------------------------------------------------------------- -/

/-- Accumulate decimal digits; fails on the first non-digit. -/
def parseDigitsAux : List Char → Nat → Option Nat
  | [], acc => some acc
  | c :: cs, acc =>
    if c.isDigit then parseDigitsAux cs (acc * 10 + (c.toNat - 48)) else none

/-- All-digits parse of a non-empty digit string. -/
def parseDigits : List Char → Option Nat
  | [] => none
  | cs => parseDigitsAux cs 0

/-- strconv.Atoi: optional sign, then one or more decimal digits and
nothing else; values outside the int64 range are an error (ErrRange).
Returns none exactly when Go returns a non-nil error. -/
def goAtoi (s : String) : Option Int :=
  let int64Max : Nat := 9223372036854775807
  match s.toList with
  | [] => none
  | c :: cs =>
    if c = '+' then
      (parseDigits cs).bind fun n =>
        if n ≤ int64Max then some (Int.ofNat n) else none
    else if c = '-' then
      (parseDigits cs).bind fun n =>
        if n ≤ int64Max + 1 then some (-(Int.ofNat n)) else none
    else
      (parseDigits (c :: cs)).bind fun n =>
        if n ≤ int64Max then some (Int.ofNat n) else none

/-- strconv.ParseBool with the error discarded, as in ListJobs
(remote, _ := strconv.ParseBool(remoteStr)): the strings Go accepts as
true give true, everything else leaves the zero value false. -/
def goParseBoolLenient (s : String) : Bool :=
  s = "1" ∨ s = "t" ∨ s = "T" ∨ s = "true" ∨ s = "TRUE" ∨ s = "True"

/-- ASCII fragment of strings.ToLower, applied per character.  It
agrees with Go on every ASCII string; no non-ASCII character lowercases
to a letter of \x22pdf\x22, \x22doc\x22, \x22docx\x22 or to a dot, so
the allowed-extension decision below is unchanged. -/
def asciiToLower (c : Char) : Char :=
  if 'A' ≤ c ∧ c ≤ 'Z' then Char.ofNat (c.toNat + 32) else c

/-- strings.ToLower restricted to its ASCII action. -/
def goToLower (s : String) : String :=
  String.mk (s.toList.map asciiToLower)

/-- Scan a reversed path for the extension: stop at a path separator,
return the suffix from the last dot. -/
def goExtAux : List Char → List Char → String
  | [], _ => ""
  | c :: rest, acc =>
    if c = '/' then ""
    else if c = '.' then String.mk (c :: acc)
    else goExtAux rest (c :: acc)

/-- path/filepath.Ext: the suffix of the final path element starting at
its last dot, empty if there is no dot. -/
def goExt (path : String) : String :=
  goExtAux path.toList.reverse []

/-- net/http.StatusText for the codes this service produces. -/
def goStatusText (code : Nat) : String :=
  if code = 400 then "Bad Request"
  else if code = 401 then "Unauthorized"
  else if code = 404 then "Not Found"
  else if code = 500 then "Internal Server Error"
  else if code = 502 then "Bad Gateway"
  else if code = 503 then "Service Unavailable"
  else ""

/- ----------------------------------------------------------------
   REST handler infrastructure (internal/handlers/helpers.go)
   ---------------------------------------------------------------- -/

/-- An HTTP response as written by a handler: status code, headers
(association list of canonical header names to value lists, the content
of the Go http.Header map) and the encoded JSON body. -/
structure HttpResponse where
  statusCode : Nat
  headers : List (String × List String)
  body : Json

/-- What a handler run produces: either a written response, or a
run-time panic from a failed type assertion. -/
inductive HandlerOutcome where
  | response (r : HttpResponse) : HandlerOutcome
  | panicked : HandlerOutcome

/-- The fixed GraphQL documents of the query catalog
(internal/gateway/queries.go).  Their text is opaque configuration
data; each handler names exactly one of them. -/
inductive QueryDoc where
  | getJobsQuery
  | getJobQuery
  | createJobMutation
  | updateJobMutation
  | publishJobMutation
  | closeJobMutation
  | deleteJobMutation
  | incrementJobViewMutation
  | generateJobDescriptionMutation
  | getApplicationsQuery
  | getApplicationQuery
  | submitApplicationMutation
  | updateApplicationStatusMutation
  | bulkUpdateApplicationStatusMutation
  | addApplicationNoteMutation
  | scoreApplicationMutation
  | getCandidateQuery
  | updateCandidateProfileMutation
deriving DecidableEq

/-- One invocation of the gateway client: the catalog document and the
variables map sent with it (field vars models the Go parameter named
variables, which Lean reserves). -/
structure GatewayCall where
  doc : QueryDoc
  vars : List (String × Json)

/-- Result of the (at most one) gateway call a handler makes, from the
point of view of the handler: the error or the decoded envelope that
HubHRMSClient.Query / Mutate returned. -/
inductive GatewayResult where
  | fail (msg : String) : GatewayResult
  | ok (resp : GraphQLResponse) : GatewayResult

/-- The asynchronous confirmation-email send spawned by a successful
SubmitApplication.  Go evaluates go-statement arguments in the calling
goroutine, so a spawn always carries three already-evaluated strings;
a failed argument assertion panics the handler and spawns nothing. -/
inductive EmailSpawn where
  | sent (email firstName jobId : String) : EmailSpawn

/-- Everything observable about one handler run: the response (or
panic), the gateway calls issued, and the email goroutine spawned, if
any. -/
structure HandlerResult where
  outcome : HandlerOutcome
  calls : List GatewayCall
  emailSpawn : Option EmailSpawn := none

/-- The written status code of a handler run, none on panic. -/
def HandlerResult.statusCode (h : HandlerResult) : Option Nat :=
  match h.outcome with
  | .response r => some r.statusCode
  | .panicked => none

/-- The written body of a handler run, none on panic. -/
def HandlerResult.bodyJson (h : HandlerResult) : Option Json :=
  match h.outcome with
  | .response r => some r.body
  | .panicked => none

/-- respondJSON (handlers/helpers.go): sets Content-Type, writes the
status and encodes the data. -/
def respondJSON (statusCode : Nat) (data : Json) : HttpResponse :=
  { statusCode := statusCode
    headers := [("Content-Type", ["application/json"])]
    body := data }

/-- The ErrorResponse body (handlers/helpers.go): error text, message,
optional details, status; fields in struct order, details omitted when
the error is nil. -/
def errorBody (statusCode : Nat) (message : String) (details : Option String) : Json :=
  Json.obj
    ([("error", Json.str (goStatusText statusCode)),
      ("message", Json.str message)] ++
     (match details with
      | some d => [("details", Json.str d)]
      | none => []) ++
     [("status", Json.num statusCode)])

/-- respondError (handlers/helpers.go). -/
def respondError (statusCode : Nat) (message : String) (details : Option String) : HttpResponse :=
  respondJSON statusCode (errorBody statusCode message details)

/- ----------------------------------------------------------------
   Job handlers (internal/handlers/health.go, JobHandler)
   ---------------------------------------------------------------- -/

/-- The recognized query-string keys of ListJobs, each as returned by
r.URL.Query().Get: the empty string when the key is absent (or supplied
empty). -/
structure JobListParams where
  q : String
  department : String
  location : String
  employmentType : String
  experienceLevel : String
  remote : String
  status : String
  limit : String
  offset : String

/-- The first six conditional filter entries of ListJobs (health.go
lines 120-139), in the order the code adds them. -/
def jobFiltersBase (p : JobListParams) : List (String × Json) :=
  (if p.q ≠ "" then [("query", Json.str p.q)] else []) ++
  (if p.department ≠ "" then [("departments", Json.arr [Json.str p.department])] else []) ++
  (if p.location ≠ "" then [("locations", Json.arr [Json.str p.location])] else []) ++
  (if p.employmentType ≠ "" then [("employmentTypes", Json.arr [Json.str p.employmentType])] else []) ++
  (if p.experienceLevel ≠ "" then [("experienceLevels", Json.arr [Json.str p.experienceLevel])] else []) ++
  (if p.remote ≠ "" then [("remoteWork", Json.bool (goParseBoolLenient p.remote))] else [])

/-- The complete filter map of ListJobs (health.go lines 120-145): the
base entries plus the status entry, which defaults to PUBLISHED when
the caller supplied none. -/
def buildJobFilters (p : JobListParams) : List (String × Json) :=
  let filters := jobFiltersBase p
  if p.status ≠ "" then filters ++ [("status", Json.str p.status)]
  else filters ++ [("status", Json.str "PUBLISHED")]

/-- The pagination limit (health.go lines 148-154 and applications.go
lines 113-119): 20 unless the parameter parses to an int in (0, 100]. -/
def parseLimit (limitStr : String) : Int :=
  if limitStr ≠ "" then
    match goAtoi limitStr with
    | some l => if l > 0 ∧ l ≤ 100 then l else 20
    | none => 20
  else 20

/-- The pagination offset (health.go lines 149-159 and applications.go
lines 114-124): 0 unless the parameter parses to a non-negative int. -/
def parseOffset (offsetStr : String) : Int :=
  if offsetStr ≠ "" then
    match goAtoi offsetStr with
    | some o => if o ≥ 0 then o else 0
    | none => 0
  else 0

/-- The variables map ListJobs sends to the gateway (health.go lines
162-168). -/
def listJobsVariables (p : JobListParams) : List (String × Json) :=
  let filters := buildJobFilters p
  [("limit", Json.num (parseLimit p.limit)),
   ("offset", Json.num (parseOffset p.offset))] ++
  (if filters.length > 0 then [("filters", Json.obj filters)] else [])

/-- JobHandler.ListJobs (health.go lines 105-181).  On success the code
asserts resp.Data to a map, indexes \x22jobs\x22 and asserts the result
to a slice before taking its length for the X-Total-Count header; any
failed assertion panics. -/
def listJobs (p : JobListParams) (gw : GatewayResult) : HandlerResult :=
  let call : GatewayCall := { doc := .getJobsQuery, vars := listJobsVariables p }
  match gw with
  | .fail e =>
    { outcome := .response (respondError 500 "Failed to fetch jobs" (some e)),
      calls := [call] }
  | .ok resp =>
    match resp.data with
    | Json.obj fields =>
      match alookup fields "jobs" with
      | some (Json.arr items) =>
        { outcome := .response
            { statusCode := 200,
              headers := [("X-Total-Count", [toString items.length]),
                          ("Content-Type", ["application/json"])],
              body := resp.data },
          calls := [call] }
      | _ => { outcome := .panicked, calls := [call] }
    | _ => { outcome := .panicked, calls := [call] }

/-- JobHandler.GetJob (health.go lines 184-209). -/
def getJob (jobID : String) (gw : GatewayResult) : HandlerResult :=
  if jobID = "" then
    { outcome := .response (respondError 400 "Job ID is required" none), calls := [] }
  else
    let call : GatewayCall := { doc := .getJobQuery, vars := [("id", Json.str jobID)] }
    match gw with
    | .fail e =>
      { outcome := .response (respondError 500 "Failed to fetch job" (some e)),
        calls := [call] }
    | .ok resp =>
      if resp.data.isNull then
        { outcome := .response (respondError 404 "Job not found" none), calls := [call] }
      else
        { outcome := .response (respondJSON 200 resp.data), calls := [call] }

/-- First field of the required list that is missing from the decoded
body: the loop of CreateJob / SubmitApplication returns on the first
absent key. -/
def firstMissingField (required : List String) (input : List (String × Json)) : Option String :=
  match required with
  | [] => none
  | f :: rest =>
    if hasKey input f then firstMissingField rest input else some f

/-- Required fields of JobHandler.CreateJob (health.go line 223). -/
def createJobRequiredFields : List String :=
  ["title", "department", "location", "employmentType", "experienceLevel",
   "description", "requirements", "skills"]

/-- JobHandler.CreateJob (health.go lines 212-242), after a successful
body decode into a map. -/
def createJob (input : List (String × Json)) (gw : GatewayResult) : HandlerResult :=
  match firstMissingField createJobRequiredFields input with
  | some f =>
    { outcome := .response (respondError 400 ("Missing required field: " ++ f) none),
      calls := [] }
  | none =>
    let call : GatewayCall :=
      { doc := .createJobMutation, vars := [("input", Json.obj input)] }
    match gw with
    | .fail e =>
      { outcome := .response (respondError 500 "Failed to create job" (some e)),
        calls := [call] }
    | .ok resp =>
      { outcome := .response (respondJSON 201 resp.data), calls := [call] }

/-- JobHandler.IncrementView (health.go lines 349-373): a gateway
failure is swallowed into a 200 soft-failure body. -/
def incrementView (jobID : String) (gw : GatewayResult) : HandlerResult :=
  if jobID = "" then
    { outcome := .response (respondError 400 "Job ID is required" none), calls := [] }
  else
    let call : GatewayCall :=
      { doc := .incrementJobViewMutation, vars := [("id", Json.str jobID)] }
    match gw with
    | .fail _ =>
      { outcome := .response (respondJSON 200 (Json.obj
          [("success", Json.bool false),
           ("message", Json.str "View count update failed")])),
        calls := [call] }
    | .ok resp =>
      { outcome := .response (respondJSON 200 resp.data), calls := [call] }

/- ----------------------------------------------------------------
   Application handlers (internal/handlers/applications.go)
   ---------------------------------------------------------------- -/

/-- Required fields of SubmitApplication (applications.go line 46). -/
def submitRequiredFields : List String :=
  ["jobId", "firstName", "lastName", "email", "phone", "resumeUrl",
   "currentLocation", "availability"]

/-- The body map after the willingToRelocate default (applications.go
lines 55-57): the handler forwards it upstream and reads the email
arguments from it. -/
def submitInputWithDefaults (input : List (String × Json)) : List (String × Json) :=
  if hasKey input "willingToRelocate" then input
  else input ++ [("willingToRelocate", Json.bool false)]

/-- ApplicationHandler.SubmitApplication (applications.go lines
35-77), after a successful body decode into a map: presence-only
required-field validation, the willingToRelocate default, one gateway
mutation.  After a successful mutation the handler reaches the go
statement of lines 70-74; Go evaluates go-statement arguments in the
calling goroutine, so the three bare .(string) assertions on
email/firstName/jobId run in the handler itself: if any of them is not
a string the handler panics there - before respondJSON writes the 201
on line 76 and before any goroutine is spawned - and only when all
three are strings is the 201 written and the email send spawned with
those values. -/
def submitApplication (input : List (String × Json)) (gw : GatewayResult) : HandlerResult :=
  match firstMissingField submitRequiredFields input with
  | some f =>
    { outcome := .response (respondError 400 ("Missing required field: " ++ f) none),
      calls := [] }
  | none =>
    let input2 := submitInputWithDefaults input
    let call : GatewayCall :=
      { doc := .submitApplicationMutation, vars := [("input", Json.obj input2)] }
    match gw with
    | .fail e =>
      { outcome := .response (respondError 500 "Failed to submit application" (some e)),
        calls := [call] }
    | .ok resp =>
      match jsonAsString (mapIndex input2 "email"),
            jsonAsString (mapIndex input2 "firstName"),
            jsonAsString (mapIndex input2 "jobId") with
      | some email, some firstName, some jobId =>
        { outcome := .response (respondJSON 201 resp.data),
          calls := [call],
          emailSpawn := some (.sent email firstName jobId) }
      | _, _, _ =>
        { outcome := .panicked, calls := [call], emailSpawn := none }

/-- The recognized query-string keys of ListApplications, as returned
by r.URL.Query().Get. -/
structure AppListParams where
  jobId : String
  status : String
  dateFrom : String
  dateTo : String
  minScore : String
  limit : String
  offset : String

/-- The filter map of ListApplications (applications.go lines 93-110).
The strconv.ParseFloat outcome on minScore is external numeric parsing
and is passed in as minScoreParsed (some v = parsed float value, none =
parse error, in which case the entry is skipped). -/
def buildAppFilters (p : AppListParams) (minScoreParsed : Option Json) : List (String × Json) :=
  (if p.jobId ≠ "" then [("jobId", Json.str p.jobId)] else []) ++
  (if p.status ≠ "" then [("status", Json.str p.status)] else []) ++
  (if p.dateFrom ≠ "" then [("dateFrom", Json.str p.dateFrom)] else []) ++
  (if p.dateTo ≠ "" then [("dateTo", Json.str p.dateTo)] else []) ++
  (if p.minScore ≠ "" then
    (match minScoreParsed with
     | some v => [("minScore", v)]
     | none => [])
   else [])

/-- The variables map ListApplications sends to the gateway
(applications.go lines 126-132). -/
def listApplicationsVariables (p : AppListParams) (minScoreParsed : Option Json) :
    List (String × Json) :=
  let filters := buildAppFilters p minScoreParsed
  [("limit", Json.num (parseLimit p.limit)),
   ("offset", Json.num (parseOffset p.offset))] ++
  (if filters.length > 0 then [("filters", Json.obj filters)] else [])

/-- ApplicationHandler.GetApplication (applications.go lines 144-169). -/
def getApplication (appID : String) (gw : GatewayResult) : HandlerResult :=
  if appID = "" then
    { outcome := .response (respondError 400 "Application ID is required" none), calls := [] }
  else
    let call : GatewayCall := { doc := .getApplicationQuery, vars := [("id", Json.str appID)] }
    match gw with
    | .fail e =>
      { outcome := .response (respondError 500 "Failed to fetch application" (some e)),
        calls := [call] }
    | .ok resp =>
      if resp.data.isNull then
        { outcome := .response (respondError 404 "Application not found" none), calls := [call] }
      else
        { outcome := .response (respondJSON 200 resp.data), calls := [call] }

/-- ApplicationHandler.GetCandidate (applications.go lines 317-342). -/
def getCandidate (candidateID : String) (gw : GatewayResult) : HandlerResult :=
  if candidateID = "" then
    { outcome := .response (respondError 400 "Candidate ID is required" none), calls := [] }
  else
    let call : GatewayCall := { doc := .getCandidateQuery, vars := [("id", Json.str candidateID)] }
    match gw with
    | .fail e =>
      { outcome := .response (respondError 500 "Failed to fetch candidate" (some e)),
        calls := [call] }
    | .ok resp =>
      if resp.data.isNull then
        { outcome := .response (respondError 404 "Candidate not found" none), calls := [call] }
      else
        { outcome := .response (respondJSON 200 resp.data), calls := [call] }

/- ----------------------------------------------------------------
   Upload service (internal/services/upload.go)
   ---------------------------------------------------------------- -/

/-- The allowed extensions and their exact content types
(upload.go lines 57-61, allowedExts). -/
def allowedExts : List (String × String) :=
  [(".pdf", "application/pdf"),
   (".doc", "application/msword"),
   (".docx", "application/vnd.openxmlformats-officedocument.wordprocessingml.document")]

/-- The allowed content types of GetPresignedURL
(upload.go lines 129-133, allowedTypes). -/
def allowedTypes : List String :=
  ["application/pdf",
   "application/msword",
   "application/vnd.openxmlformats-officedocument.wordprocessingml.document"]

/-- Observable outcome of an upload-service handler run: the HTTP
status written, how many storage (S3) calls were issued, and the
content type attached to the stored object, if any. -/
structure UploadOutcome where
  statusCode : Nat
  storageCalls : Nat
  contentType : Option String
deriving DecidableEq

/-- UploadService.UploadResume (upload.go lines 40-114).  formOk is
whether ParseMultipartForm and FormFile succeeded; filename and size
are the multipart header fields; putOk is the outcome of the S3
PutObject call, relevant only when it is reached. -/
def uploadResume (formOk : Bool) (filename : String) (size : Int) (putOk : Bool) :
    UploadOutcome :=
  if formOk = false then
    { statusCode := 400, storageCalls := 0, contentType := none }
  else
    let ext := goToLower (goExt filename)
    match alookup allowedExts ext with
    | none => { statusCode := 400, storageCalls := 0, contentType := none }
    | some contentType =>
      if size > 10 * 1048576 then
        { statusCode := 400, storageCalls := 0, contentType := none }
      else if putOk then
        { statusCode := 200, storageCalls := 1, contentType := some contentType }
      else
        { statusCode := 500, storageCalls := 1, contentType := some contentType }

/-- UploadService.GetPresignedURL (upload.go lines 117-178).  bodyOk is
whether the request body decoded; presignOk is the outcome of the
presign call, relevant only when it is reached.  The expiresIn field of
the success body is the literal 900. -/
def getPresignedURL (bodyOk : Bool) (contentType : String) (presignOk : Bool) :
    UploadOutcome :=
  if bodyOk = false then
    { statusCode := 400, storageCalls := 0, contentType := none }
  else if (allowedTypes.contains contentType) = false then
    { statusCode := 400, storageCalls := 0, contentType := none }
  else if presignOk then
    { statusCode := 200, storageCalls := 1, contentType := some contentType }
  else
    { statusCode := 500, storageCalls := 1, contentType := some contentType }

/- ----------------------------------------------------------------
   GraphQL passthrough proxy (gateway/hubhrms.go, ProxyHandler)
   ---------------------------------------------------------------- -/

/-- http.Header.Set: replace the value list of the key by the single
value, appending a new entry when the key is absent. -/
def hset : List (String × List String) → String → String → List (String × List String)
  | [], k, v => [(k, [v])]
  | (k1, vs) :: rest, k, v =>
    if k1 = k then (k, [v]) :: rest else (k1, vs) :: hset rest k v

/-- http.Header.Add: append the value to the value list of the key,
appending a new entry when the key is absent. -/
def hadd : List (String × List String) → String → String → List (String × List String)
  | [], k, v => [(k, [v])]
  | (k1, vs) :: rest, k, v =>
    if k1 = k then (k1, vs ++ [v]) :: rest else (k1, vs) :: hadd rest k v

/-- The header-copy loop of ProxyHandler (hubhrms.go lines 152-156):
for every key and every one of its values, Add it to the response
writer. -/
def haddAll (dst : List (String × List String)) (src : List (String × List String)) :
    List (String × List String) :=
  src.foldl (fun acc kv => kv.2.foldl (fun acc2 v => hadd acc2 kv.1 v) acc) dst

/-- An upstream reply to the proxied request: status code, headers and
raw body bytes. -/
structure UpstreamReply where
  statusCode : Nat
  headers : List (String × List String)
  body : String

/-- The upstream exchange of the proxy: transport failure or a reply. -/
inductive ProxyUpstream where
  | transportError (msg : String) : ProxyUpstream
  | reply (r : UpstreamReply) : ProxyUpstream

/-- The request the proxy sends upstream: the forwarded body bytes and
the headers set on it. -/
structure ProxySentRequest where
  body : String
  headers : List (String × List String)

/-- What the proxy writes downstream: an http.Error page, or the
relayed upstream status, headers and body. -/
inductive ProxyDownstream where
  | httpError (statusCode : Nat) (msg : String) : ProxyDownstream
  | relayed (statusCode : Nat) (headers : List (String × List String)) (body : String) :
      ProxyDownstream
deriving DecidableEq

/-- Observable outcome of one ProxyHandler run. -/
structure ProxyResult where
  sent : Option ProxySentRequest
  downstream : ProxyDownstream

/-- The headers ProxyHandler sets on the upstream request (hubhrms.go
lines 132-140): Content-Type, the service Authorization when an api key
is configured, and the inbound Authorization value under X-User-Token
when present. -/
def proxySentHeaders (authHeader apiKey : String) : List (String × List String) :=
  let h0 := hset [] "Content-Type" "application/json"
  let h1 := if apiKey ≠ "" then hset h0 "Authorization" ("Bearer " ++ apiKey) else h0
  if authHeader ≠ "" then hset h1 "X-User-Token" authHeader else h1

/-- HubHRMSClient.ProxyHandler (hubhrms.go lines 108-166), given the
already-read body bytes.  parseOk is whether json.Unmarshal into a
GraphQLRequest succeeded; authHeader is the Authorization header of the
inbound request (empty when absent); apiKey is the service credential;
up is the upstream exchange.  The exact body bytes are re-sent; on a
reply, every upstream header is added to the response writer and then
Content-Type is overwritten with application/json before the upstream
status is mirrored. -/
def proxyHandler (body : String) (parseOk : Bool) (authHeader : String) (apiKey : String)
    (up : ProxyUpstream) : ProxyResult :=
  if parseOk = false then
    { sent := none, downstream := .httpError 400 "Invalid GraphQL request" }
  else
    match up with
    | .transportError _ =>
      { sent := some { body := body, headers := proxySentHeaders authHeader apiKey },
        downstream := .httpError 502 "Failed to execute request" }
    | .reply r =>
      { sent := some { body := body, headers := proxySentHeaders authHeader apiKey },
        downstream := .relayed r.statusCode
          (hset (haddAll [] r.headers) "Content-Type" "application/json") r.body }

/- ----------------------------------------------------------------
   General lemmas about the association-list operations
   ---------------------------------------------------------------- -/

theorem alookup_append_of_none {α : Type} (l1 l2 : List (String × α)) (key : String)
    (h : alookup l1 key = none) : alookup (l1 ++ l2) key = alookup l2 key := by
  induction l1 with
  | nil => simp
  | cons p rest ih =>
    obtain ⟨k, v⟩ := p
    by_cases hk : k = key
    · simp [alookup, hk] at h
    · simp [alookup, hk] at h ⊢
      exact ih h

theorem alookup_append_of_some {α : Type} (l1 l2 : List (String × α)) (key : String)
    (v : α) (h : alookup l1 key = some v) : alookup (l1 ++ l2) key = some v := by
  induction l1 with
  | nil => simp [alookup] at h
  | cons p rest ih =>
    obtain ⟨k, w⟩ := p
    by_cases hk : k = key
    · simp [alookup, hk] at h ⊢
      exact h
    · simp [alookup, hk] at h ⊢
      exact ih h

theorem alookup_eq_none {α : Type} (l : List (String × α)) (key : String)
    (h : ∀ p ∈ l, p.1 ≠ key) : alookup l key = none := by
  induction l with
  | nil => rfl
  | cons p rest ih =>
    obtain ⟨k, v⟩ := p
    have hk : k ≠ key := h (k, v) (by simp)
    simp [alookup, hk]
    exact ih (fun q hq => h q (by simp [hq]))

/- ----------------------------------------------------------------
   Claim C5: gateway client error taxonomy
   ---------------------------------------------------------------- -/

/-- Claim C5: for every Gateway Client Query/Mutate invocation, a
non-200 upstream HTTP status (and a transport failure) yields an error
result and no GraphQL response, while a 200 reply that decodes is
returned to the caller unchanged even when its errors array is
non-empty - in particular the data field is passed through as-is, and
Mutate behaves identically to Query. -/
theorem client_status_vs_graphql_errors :
    (∀ statusCode decoded, statusCode ≠ 200 →
      ∃ e, clientQuery (.reply statusCode decoded) = Except.error e)
  ∧ (∀ msg, ∃ e, clientQuery (.transportError msg) = Except.error e)
  ∧ (∀ resp : GraphQLResponse, resp.errors ≠ [] →
      clientQuery (.reply 200 (some resp)) = Except.ok resp)
  ∧ (∀ up, clientMutate up = clientQuery up) := by
  refine ⟨fun statusCode decoded h => ?_, fun msg => ?_, fun resp _ => ?_, fun up => rfl⟩
  · exact ⟨"Hub-HRMS returned status " ++ toString statusCode, by simp [clientQuery, h]⟩
  · exact ⟨_, rfl⟩
  · simp [clientQuery]

/-- Witness for C5 at concrete inputs: a 500 reply is an error, and a
200 reply carrying a GraphQL error is returned intact. -/
theorem client_status_vs_graphql_errors_witness :
    (∃ e, clientQuery (.reply 500 none) = Except.error e)
  ∧ clientQuery (.reply 200 (some ⟨Json.null, [⟨"boom", [], []⟩]⟩)) =
      Except.ok ⟨Json.null, [⟨"boom", [], []⟩]⟩ :=
  ⟨client_status_vs_graphql_errors.1 500 none (by decide),
   client_status_vs_graphql_errors.2.2.1 ⟨Json.null, [⟨"boom", [], []⟩]⟩ (by simp)⟩

/- ----------------------------------------------------------------
   Claim C6: best-effort view increment
   ---------------------------------------------------------------- -/

/-- Claim C6: for every view-increment request with a non-empty job id
the handler responds HTTP 200 even when the gateway mutation fails; on
failure the body is the success:false soft-failure object, and on
success the upstream data is relayed. -/
theorem incrementView_best_effort (jobID : String) (h : jobID ≠ "") (gw : GatewayResult) :
    (incrementView jobID gw).statusCode = some 200
  ∧ (∀ e, gw = .fail e →
      (incrementView jobID gw).bodyJson = some (Json.obj
        [("success", Json.bool false),
         ("message", Json.str "View count update failed")]))
  ∧ (∀ resp, gw = .ok resp → (incrementView jobID gw).bodyJson = some resp.data) := by
  cases gw <;>
    simp [incrementView, h, HandlerResult.statusCode, HandlerResult.bodyJson, respondJSON]

/-- Witness for C6 at a concrete failing gateway call. -/
theorem incrementView_best_effort_witness :
    (incrementView "job-9" (.fail "upstream down")).statusCode = some 200
  ∧ (incrementView "job-9" (.fail "upstream down")).bodyJson = some (Json.obj
      [("success", Json.bool false),
       ("message", Json.str "View count update failed")]) :=
  ⟨(incrementView_best_effort "job-9" (by decide) (.fail "upstream down")).1,
   (incrementView_best_effort "job-9" (by decide) (.fail "upstream down")).2.1
     "upstream down" rfl⟩

/- ----------------------------------------------------------------
   Claim C1: default published-only status filter
   ---------------------------------------------------------------- -/

theorem jobFiltersBase_no_status (p : JobListParams) :
    alookup (jobFiltersBase p) "status" = none := by
  apply alookup_eq_none
  intro q hq
  unfold jobFiltersBase at hq
  simp only [List.mem_append] at hq
  rcases hq with ((((h | h) | h) | h) | h) | h <;>
    first
    | (split at h <;> simp_all)

theorem buildJobFilters_status (p : JobListParams) :
    alookup (buildJobFilters p) "status" =
      some (Json.str (if p.status = "" then "PUBLISHED" else p.status)) := by
  unfold buildJobFilters
  by_cases h : p.status = "" <;>
    simp [h, alookup_append_of_none _ _ _ (jobFiltersBase_no_status p), alookup]

theorem buildJobFilters_ne_nil (p : JobListParams) : buildJobFilters p ≠ [] := by
  unfold buildJobFilters
  split <;> simp

theorem listJobsVariables_filters (p : JobListParams) :
    alookup (listJobsVariables p) "filters" = some (Json.obj (buildJobFilters p)) := by
  have h : (buildJobFilters p).length > 0 :=
    List.length_pos.mpr (buildJobFilters_ne_nil p)
  simp [listJobsVariables, h, alookup]

/-- The filters.status entry of a variables map: look up filters, then
status inside the filter object. -/
def filtersStatus (vars : List (String × Json)) : Option Json :=
  (alookup vars "filters").bind fun f =>
    match f with
    | Json.obj fs => alookup fs "status"
    | _ => none

/-- Claim C1: for every job-listing request whose status query
parameter is absent, the variables sent to the gateway carry
filters.status = PUBLISHED; for every request with a non-empty status
that value is forwarded instead; and the handler issues exactly the
GetJobs query with those variables. -/
theorem listJobs_status_default (p : JobListParams) :
    (p.status = "" →
      filtersStatus (listJobsVariables p) = some (Json.str "PUBLISHED"))
  ∧ (p.status ≠ "" →
      filtersStatus (listJobsVariables p) = some (Json.str p.status))
  ∧ (∀ gw, (listJobs p gw).calls =
      [{ doc := .getJobsQuery, vars := listJobsVariables p }]) := by
  refine ⟨fun h => ?_, fun h => ?_, fun gw => ?_⟩
  · simp [filtersStatus, listJobsVariables_filters, buildJobFilters_status, h]
  · simp [filtersStatus, listJobsVariables_filters, buildJobFilters_status, h]
  · cases gw with
    | fail e => rfl
    | ok resp =>
      cases hd : resp.data <;> (simp only [listJobs, hd]; try rfl)
      case obj fields =>
        cases ha : alookup fields "jobs" with
        | none => rfl
        | some v => cases v <;> rfl

/-- Witness for C1: with no query parameters the forwarded status is
PUBLISHED; with status=DRAFT it is DRAFT. -/
theorem listJobs_status_default_witness :
    filtersStatus (listJobsVariables
      { q := "", department := "", location := "", employmentType := "",
        experienceLevel := "", remote := "", status := "", limit := "", offset := "" }) =
      some (Json.str "PUBLISHED")
  ∧ filtersStatus (listJobsVariables
      { q := "", department := "", location := "", employmentType := "",
        experienceLevel := "", remote := "", status := "DRAFT", limit := "", offset := "" }) =
      some (Json.str "DRAFT") :=
  ⟨(listJobs_status_default _).1 rfl,
   (listJobs_status_default _).2.1 (by decide)⟩

/- ----------------------------------------------------------------
   Claim C2: pagination bounds and defaults
   ---------------------------------------------------------------- -/

theorem goAtoi_empty : goAtoi "" = none := rfl

/-- Claim C2: for both list handlers, a limit parameter that is absent,
non-numeric or outside [1,100] is forwarded as the default 20, and a
supplied in-range limit is forwarded unchanged; an offset that is
absent, non-numeric or negative is forwarded as 0, and a supplied
non-negative offset is forwarded unchanged.  The last two conjuncts
identify the limit and offset entries of the variables maps both
handlers send to the gateway. -/
theorem list_pagination_defaults (limitStr offsetStr : String) :
    ((limitStr = "" ∨ goAtoi limitStr = none ∨
      (∀ l, goAtoi limitStr = some l → l < 1 ∨ 100 < l)) →
      parseLimit limitStr = 20)
  ∧ (∀ l, goAtoi limitStr = some l → 1 ≤ l → l ≤ 100 → parseLimit limitStr = l)
  ∧ ((offsetStr = "" ∨ goAtoi offsetStr = none ∨
      (∀ o, goAtoi offsetStr = some o → o < 0)) →
      parseOffset offsetStr = 0)
  ∧ (∀ o, goAtoi offsetStr = some o → 0 ≤ o → parseOffset offsetStr = o)
  ∧ (∀ p : JobListParams,
      alookup (listJobsVariables p) "limit" = some (Json.num (parseLimit p.limit)) ∧
      alookup (listJobsVariables p) "offset" = some (Json.num (parseOffset p.offset)))
  ∧ (∀ (p : AppListParams) (msp : Option Json),
      alookup (listApplicationsVariables p msp) "limit" =
        some (Json.num (parseLimit p.limit)) ∧
      alookup (listApplicationsVariables p msp) "offset" =
        some (Json.num (parseOffset p.offset))) := by
  refine ⟨fun h => ?_, fun l hl h1 h100 => ?_, fun h => ?_, fun o ho h0 => ?_,
          fun p => ⟨?_, ?_⟩, fun p msp => ⟨?_, ?_⟩⟩
  · rcases h with h | h | h
    · simp [parseLimit, h]
    · by_cases he : limitStr = "" <;> simp [parseLimit, he, h]
    · by_cases he : limitStr = ""
      · simp [parseLimit, he]
      · cases ha : goAtoi limitStr with
        | none => simp [parseLimit, he, ha]
        | some l =>
          have := h l ha
          simp [parseLimit, he, ha]
          intro hpos
          omega
  · have he : limitStr ≠ "" := by
      intro he
      rw [he, goAtoi_empty] at hl
      exact Option.noConfusion hl
    have : l > 0 ∧ l ≤ 100 := ⟨by omega, h100⟩
    simp [parseLimit, he, hl, this]
  · rcases h with h | h | h
    · simp [parseOffset, h]
    · by_cases he : offsetStr = "" <;> simp [parseOffset, he, h]
    · by_cases he : offsetStr = ""
      · simp [parseOffset, he]
      · cases ha : goAtoi offsetStr with
        | none => simp [parseOffset, he, ha]
        | some o =>
          have := h o ha
          simp [parseOffset, he, ha]
          omega
  · have he : offsetStr ≠ "" := by
      intro he
      rw [he, goAtoi_empty] at ho
      exact Option.noConfusion ho
    simp [parseOffset, he, ho, h0]
  · simp [listJobsVariables, alookup]
  · simp [listJobsVariables, alookup]
  · simp [listApplicationsVariables, alookup]
  · simp [listApplicationsVariables, alookup]

/-- Witness for C2 at concrete parameter strings: absent, non-numeric,
too-large and negative values fall back to the defaults, in-range
values pass through. -/
theorem list_pagination_defaults_witness :
    parseLimit "" = 20 ∧ parseLimit "abc" = 20 ∧ parseLimit "101" = 20 ∧
    parseLimit "0" = 20 ∧ parseLimit "50" = 50 ∧
    parseOffset "-3" = 0 ∧ parseOffset "xyz" = 0 ∧ parseOffset "7" = 7 :=
  ⟨(list_pagination_defaults "" "").1 (Or.inl rfl),
   (list_pagination_defaults "abc" "").1 (Or.inr (Or.inl (by decide))),
   (list_pagination_defaults "101" "").1 (Or.inr (Or.inr (by decide))),
   (list_pagination_defaults "0" "").1 (Or.inr (Or.inr (by decide))),
   (list_pagination_defaults "50" "").2.1 50 (by decide) (by decide) (by decide),
   (list_pagination_defaults "" "-3").2.2.1 (Or.inr (Or.inr (by decide))),
   (list_pagination_defaults "" "xyz").2.2.1 (Or.inr (Or.inl (by decide))),
   (list_pagination_defaults "" "7").2.2.2.1 7 (by decide) (by decide)⟩

/- ----------------------------------------------------------------
   Claim C3: by-id null payload vs transport error
   ---------------------------------------------------------------- -/

/-- Claim C3: for every get-by-id request (GetJob, GetApplication,
GetCandidate) with a non-empty identifier, the handler responds 500
exactly when the gateway call returned an error, and 404 exactly when
the call succeeded with a null data payload; the two characterizations
make the outcomes mutually exclusive. -/
theorem getById_notfound_vs_error (id : String) (h : id ≠ "") (gw : GatewayResult) :
    ((getJob id gw).statusCode = some 500 ↔ ∃ e, gw = .fail e)
  ∧ ((getJob id gw).statusCode = some 404 ↔
      ∃ resp, gw = .ok resp ∧ resp.data = Json.null)
  ∧ ((getApplication id gw).statusCode = some 500 ↔ ∃ e, gw = .fail e)
  ∧ ((getApplication id gw).statusCode = some 404 ↔
      ∃ resp, gw = .ok resp ∧ resp.data = Json.null)
  ∧ ((getCandidate id gw).statusCode = some 500 ↔ ∃ e, gw = .fail e)
  ∧ ((getCandidate id gw).statusCode = some 404 ↔
      ∃ resp, gw = .ok resp ∧ resp.data = Json.null) := by
  cases gw with
  | fail e =>
    simp [getJob, getApplication, getCandidate, h,
          HandlerResult.statusCode, respondError, respondJSON]
  | ok resp =>
    cases hd : resp.data <;>
      simp [getJob, getApplication, getCandidate, h, hd, Json.isNull,
            HandlerResult.statusCode, respondError, respondJSON]

/-- Witness for C3: a null payload yields 404, a failed call 500. -/
theorem getById_notfound_vs_error_witness :
    (getJob "j7" (.ok ⟨Json.null, []⟩)).statusCode = some 404
  ∧ (getApplication "a7" (.fail "connection refused")).statusCode = some 500
  ∧ (getCandidate "c7" (.ok ⟨Json.null, []⟩)).statusCode = some 404 :=
  ⟨((getById_notfound_vs_error "j7" (by decide) _).2.1).mpr ⟨⟨Json.null, []⟩, rfl, rfl⟩,
   ((getById_notfound_vs_error "a7" (by decide) _).2.2.1).mpr ⟨"connection refused", rfl⟩,
   ((getById_notfound_vs_error "c7" (by decide) _).2.2.2.2.2).mpr ⟨⟨Json.null, []⟩, rfl, rfl⟩⟩

/- ----------------------------------------------------------------
   Claim C4: required-field validation before any upstream call
   ---------------------------------------------------------------- -/

theorem firstMissingField_eq_none_iff (required : List String)
    (input : List (String × Json)) :
    firstMissingField required input = none ↔
      ∀ f ∈ required, hasKey input f = true := by
  induction required with
  | nil => simp [firstMissingField]
  | cons f rest ih =>
    by_cases hf : hasKey input f = true <;>
      simp [firstMissingField, hf, ih]

theorem firstMissingField_some (required : List String)
    (input : List (String × Json)) (f : String)
    (h : firstMissingField required input = some f) :
    ∃ pre post, required = pre ++ f :: post ∧
      (∀ g ∈ pre, hasKey input g = true) ∧ hasKey input f = false := by
  induction required with
  | nil => simp [firstMissingField] at h
  | cons g rest ih =>
    by_cases hg : hasKey input g = true
    · simp only [firstMissingField, hg, if_true] at h
      obtain ⟨pre, post, h1, h2, h3⟩ := ih h
      refine ⟨g :: pre, post, by simp [h1], ?_, h3⟩
      intro x hx
      rcases List.mem_cons.mp hx with hx | hx
      · exact hx ▸ hg
      · exact h2 x hx
    · simp only [firstMissingField] at h
      rw [if_neg hg] at h
      injection h with h2
      subst h2
      exact ⟨[], rest, rfl, by simp, by simpa using hg⟩

/-- Claim C4: for SubmitApplication and CreateJob, a decoded body
missing at least one of the fixed required fields is rejected with a
400 naming the first missing field in list order, before any gateway
call is issued; a body with every required field present results in
exactly one gateway mutation. -/
theorem mutations_validate_required_fields (input : List (String × Json))
    (gw : GatewayResult) :
    ((∃ f ∈ submitRequiredFields, hasKey input f = false) →
      ∃ pre f post, submitRequiredFields = pre ++ f :: post ∧
        (∀ g ∈ pre, hasKey input g = true) ∧ hasKey input f = false ∧
        (submitApplication input gw).outcome =
          .response (respondError 400 ("Missing required field: " ++ f) none) ∧
        (submitApplication input gw).calls = [])
  ∧ ((∀ f ∈ submitRequiredFields, hasKey input f = true) →
      (submitApplication input gw).calls.length = 1)
  ∧ ((∃ f ∈ createJobRequiredFields, hasKey input f = false) →
      ∃ pre f post, createJobRequiredFields = pre ++ f :: post ∧
        (∀ g ∈ pre, hasKey input g = true) ∧ hasKey input f = false ∧
        (createJob input gw).outcome =
          .response (respondError 400 ("Missing required field: " ++ f) none) ∧
        (createJob input gw).calls = [])
  ∧ ((∀ f ∈ createJobRequiredFields, hasKey input f = true) →
      (createJob input gw).calls.length = 1) := by
  refine ⟨fun hmiss => ?_, fun hall => ?_, fun hmiss => ?_, fun hall => ?_⟩
  · cases hfm : firstMissingField submitRequiredFields input with
    | none =>
      obtain ⟨f, hf, hnot⟩ := hmiss
      have := (firstMissingField_eq_none_iff _ _).mp hfm f hf
      simp [this] at hnot
    | some f =>
      obtain ⟨pre, post, h1, h2, h3⟩ := firstMissingField_some _ _ _ hfm
      exact ⟨pre, f, post, h1, h2, h3,
        by simp only [submitApplication, hfm],
        by simp only [submitApplication, hfm]⟩
  · have hfm : firstMissingField submitRequiredFields input = none :=
      (firstMissingField_eq_none_iff _ _).mpr hall
    cases gw with
    | fail e =>
      simp only [submitApplication, hfm]
      rfl
    | ok resp =>
      simp only [submitApplication, hfm]
      cases jsonAsString (mapIndex (submitInputWithDefaults input) "email") <;>
        cases jsonAsString (mapIndex (submitInputWithDefaults input) "firstName") <;>
          cases jsonAsString (mapIndex (submitInputWithDefaults input) "jobId") <;> rfl
  · cases hfm : firstMissingField createJobRequiredFields input with
    | none =>
      obtain ⟨f, hf, hnot⟩ := hmiss
      have := (firstMissingField_eq_none_iff _ _).mp hfm f hf
      simp [this] at hnot
    | some f =>
      obtain ⟨pre, post, h1, h2, h3⟩ := firstMissingField_some _ _ _ hfm
      exact ⟨pre, f, post, h1, h2, h3,
        by simp only [createJob, hfm],
        by simp only [createJob, hfm]⟩
  · have hfm : firstMissingField createJobRequiredFields input = none :=
      (firstMissingField_eq_none_iff _ _).mpr hall
    cases gw <;> simp only [createJob, hfm] <;> rfl

/-- Witness for C4: a body with only jobId present is rejected naming
firstName (the first missing field) with no gateway call; a complete
body issues exactly one mutation. -/
theorem mutations_validate_required_fields_witness :
    (∃ pre f post, submitRequiredFields = pre ++ f :: post ∧
      (∀ g ∈ pre, hasKey [("jobId", Json.str "j1")] g = true) ∧
      hasKey [("jobId", Json.str "j1")] f = false ∧
      (submitApplication [("jobId", Json.str "j1")] (.fail "never called")).outcome =
        .response (respondError 400 ("Missing required field: " ++ f) none) ∧
      (submitApplication [("jobId", Json.str "j1")] (.fail "never called")).calls = [])
  ∧ (submitApplication
      [("jobId", Json.str "j1"), ("firstName", Json.str "Ada"),
       ("lastName", Json.str "L"), ("email", Json.str "a@b.c"),
       ("phone", Json.str "1"), ("resumeUrl", Json.str "u"),
       ("currentLocation", Json.str "x"), ("availability", Json.str "now")]
      (.ok ⟨Json.null, []⟩)).calls.length = 1 :=
  ⟨(mutations_validate_required_fields [("jobId", Json.str "j1")]
      (.fail "never called")).1 ⟨"firstName", by decide, by decide⟩,
   (mutations_validate_required_fields _ (.ok ⟨Json.null, []⟩)).2.1
     (by decide)⟩

/- ----------------------------------------------------------------
   Claim C10: presence-only validation and the panicking go-statement
   arguments
   ---------------------------------------------------------------- -/

theorem mapIndex_append_other (l : List (String × Json)) (w k : String) (v : Json)
    (h : w ≠ k) : mapIndex (l ++ [(w, v)]) k = mapIndex l k := by
  unfold mapIndex
  cases ha : alookup l k with
  | none => rw [alookup_append_of_none _ _ _ ha]; simp [alookup, h]
  | some u => rw [alookup_append_of_some _ _ _ _ ha]

theorem submitInputWithDefaults_mapIndex (input : List (String × Json)) (k : String)
    (h : k ≠ "willingToRelocate") :
    mapIndex (submitInputWithDefaults input) k = mapIndex input k := by
  unfold submitInputWithDefaults
  split
  · rfl
  · exact mapIndex_append_other input _ k _ (fun he => h he.symm)

theorem submitApplication_ok_run (input : List (String × Json))
    (resp : GraphQLResponse)
    (hfm : firstMissingField submitRequiredFields input = none) :
    submitApplication input (.ok resp) =
      match jsonAsString (mapIndex (submitInputWithDefaults input) "email"),
            jsonAsString (mapIndex (submitInputWithDefaults input) "firstName"),
            jsonAsString (mapIndex (submitInputWithDefaults input) "jobId") with
      | some email, some firstName, some jobId =>
        { outcome := .response (respondJSON 201 resp.data),
          calls := [{ doc := .submitApplicationMutation,
                      vars := [("input", Json.obj (submitInputWithDefaults input))] }],
          emailSpawn := some (.sent email firstName jobId) }
      | _, _, _ =>
        { outcome := .panicked,
          calls := [{ doc := .submitApplicationMutation,
                      vars := [("input", Json.obj (submitInputWithDefaults input))] }],
          emailSpawn := none } := by
  simp only [submitApplication, hfm]

/-- A complete application body whose email field is JSON null. -/
def nullEmailBody : List (String × Json) :=
  [("jobId", Json.str "j1"), ("firstName", Json.str "Ada"),
   ("lastName", Json.str "L"), ("email", Json.null),
   ("phone", Json.str "1"), ("resumeUrl", Json.str "u"),
   ("currentLocation", Json.str "x"), ("availability", Json.str "now")]

/-- A complete application body whose email arguments are all strings. -/
def allStringsBody : List (String × Json) :=
  [("jobId", Json.str "j1"), ("firstName", Json.str "Ada"),
   ("lastName", Json.str "L"), ("email", Json.str "a@b.c"),
   ("phone", Json.str "1"), ("resumeUrl", Json.str "u"),
   ("currentLocation", Json.str "x"), ("availability", Json.str "now")]

/-- Counterexample to C10 as stated: with email bound to JSON null the
claim asserts a written 201 response followed by a panic inside the
asynchronous goroutine; but Go evaluates go-statement arguments in the
calling goroutine, so the handler itself panics at the go statement -
the mutation has been issued, yet no status is written and no
goroutine is spawned. -/
theorem submit_email_args_panic_in_handler :
    (submitApplication nullEmailBody (.ok ⟨Json.null, []⟩)).outcome = .panicked
  ∧ (submitApplication nullEmailBody (.ok ⟨Json.null, []⟩)).statusCode ≠ some 201
  ∧ (submitApplication nullEmailBody (.ok ⟨Json.null, []⟩)).emailSpawn = none
  ∧ (submitApplication nullEmailBody (.ok ⟨Json.null, []⟩)).calls.length = 1 :=
  ⟨rfl, by decide, rfl, rfl⟩

/-- Claim C10 (amended): SubmitApplication validates key presence only,
so a body whose required field is bound to null or any non-string value
passes validation and the mutation is issued; but because Go evaluates
go-statement arguments in the calling goroutine, the email, firstName
and jobId string assertions run in the handler itself after a
successful upstream call: whenever one of the three is not a string the
handler panics before writing the 201 and spawns no email goroutine,
and only when all three are strings is the 201 written and the
confirmation send spawned with exactly those values. -/
theorem submit_presence_only_handler_panic (input : List (String × Json))
    (resp : GraphQLResponse)
    (hall : ∀ f ∈ submitRequiredFields, hasKey input f = true) :
    (submitApplication input (.ok resp)).calls.length = 1
  ∧ ((jsonAsString (mapIndex input "email") = none ∨
      jsonAsString (mapIndex input "firstName") = none ∨
      jsonAsString (mapIndex input "jobId") = none) →
      (submitApplication input (.ok resp)).outcome = .panicked ∧
      (submitApplication input (.ok resp)).statusCode = none ∧
      (submitApplication input (.ok resp)).emailSpawn = none)
  ∧ (∀ e f j, jsonAsString (mapIndex input "email") = some e →
      jsonAsString (mapIndex input "firstName") = some f →
      jsonAsString (mapIndex input "jobId") = some j →
      (submitApplication input (.ok resp)).statusCode = some 201 ∧
      (submitApplication input (.ok resp)).emailSpawn = some (.sent e f j)) := by
  have hfm : firstMissingField submitRequiredFields input = none :=
    (firstMissingField_eq_none_iff _ _).mpr hall
  have hemail : mapIndex (submitInputWithDefaults input) "email" = mapIndex input "email" :=
    submitInputWithDefaults_mapIndex input "email" (by decide)
  have hfirst : mapIndex (submitInputWithDefaults input) "firstName" =
      mapIndex input "firstName" :=
    submitInputWithDefaults_mapIndex input "firstName" (by decide)
  have hjob : mapIndex (submitInputWithDefaults input) "jobId" = mapIndex input "jobId" :=
    submitInputWithDefaults_mapIndex input "jobId" (by decide)
  rw [submitApplication_ok_run input resp hfm, hemail, hfirst, hjob]
  refine ⟨?_, ?_, ?_⟩
  · cases jsonAsString (mapIndex input "email") <;>
      cases jsonAsString (mapIndex input "firstName") <;>
        cases jsonAsString (mapIndex input "jobId") <;> rfl
  · intro hbad
    rcases hbad with h | h | h
    · rw [h]
      exact ⟨rfl, rfl, rfl⟩
    · rw [h]
      cases jsonAsString (mapIndex input "email") <;> exact ⟨rfl, rfl, rfl⟩
    · rw [h]
      cases jsonAsString (mapIndex input "email") <;>
        cases jsonAsString (mapIndex input "firstName") <;> exact ⟨rfl, rfl, rfl⟩
  · intro e f j h1 h2 h3
    rw [h1, h2, h3]
    exact ⟨rfl, rfl⟩

/-- Witness for the amended C10: the null-email body issues the
mutation and panics the handler with no status written, while the
all-strings body gets the 201 and a spawn carrying the submitted
values. -/
theorem submit_presence_only_handler_panic_witness :
    (submitApplication nullEmailBody (.ok ⟨Json.null, []⟩)).calls.length = 1
  ∧ (submitApplication nullEmailBody (.ok ⟨Json.null, []⟩)).statusCode = none
  ∧ (submitApplication allStringsBody (.ok ⟨Json.null, []⟩)).statusCode = some 201
  ∧ (submitApplication allStringsBody (.ok ⟨Json.null, []⟩)).emailSpawn =
      some (.sent "a@b.c" "Ada" "j1") :=
  ⟨(submit_presence_only_handler_panic nullEmailBody ⟨Json.null, []⟩ (by decide)).1,
   ((submit_presence_only_handler_panic nullEmailBody ⟨Json.null, []⟩ (by decide)).2.1
      (Or.inl (by decide))).2.1,
   ((submit_presence_only_handler_panic allStringsBody ⟨Json.null, []⟩ (by decide)).2.2
      "a@b.c" "Ada" "j1" (by decide) (by decide) (by decide)).1,
   ((submit_presence_only_handler_panic allStringsBody ⟨Json.null, []⟩ (by decide)).2.2
      "a@b.c" "Ada" "j1" (by decide) (by decide) (by decide)).2⟩

/- ----------------------------------------------------------------
   Claim C7: upload validation before any storage call
   ---------------------------------------------------------------- -/

/-- Claim C7: a direct upload whose lowercased extension is not an
allowed one, or whose reported size exceeds 10 MiB, is rejected with
400 before any storage call; a pre-signed-URL request whose content
type is not one of the three exact allowed types is rejected with 400
with no storage call; an accepted extension within the size cap is
stored under its exact mapped content type. -/
theorem upload_validation (filename : String) (size : Int) (putOk presignOk : Bool)
    (ct : String) :
    (alookup allowedExts (goToLower (goExt filename)) = none →
      uploadResume true filename size putOk =
        { statusCode := 400, storageCalls := 0, contentType := none })
  ∧ (size > 10 * 1048576 →
      uploadResume true filename size putOk =
        { statusCode := 400, storageCalls := 0, contentType := none })
  ∧ (∀ c, alookup allowedExts (goToLower (goExt filename)) = some c →
      size ≤ 10 * 1048576 →
      (uploadResume true filename size putOk).contentType = some c ∧
      (uploadResume true filename size putOk).storageCalls = 1)
  ∧ (allowedTypes.contains ct = false →
      getPresignedURL true ct presignOk =
        { statusCode := 400, storageCalls := 0, contentType := none }) := by
  refine ⟨fun hext => ?_, fun hsize => ?_, fun c hc hsz => ?_, fun hct => ?_⟩
  · simp only [uploadResume, hext]
    rfl
  · cases hl : alookup allowedExts (goToLower (goExt filename)) with
    | none => simp only [uploadResume, hl]; rfl
    | some c =>
      simp only [uploadResume, hl]
      rw [if_neg (by simp), if_pos hsize]
  · have hns : ¬size > 10 * 1048576 := by omega
    cases putOk <;> simp only [uploadResume, hc, if_neg hns] <;> exact ⟨rfl, rfl⟩
  · simp only [getPresignedURL, hct]
    rfl

/-- Witness for C7: an .exe upload and an 11 MiB pdf are rejected with
no storage call, a small Resume.PDF is stored as application/pdf, and a
text/plain pre-signed request is rejected. -/
theorem upload_validation_witness :
    uploadResume true "virus.exe" 1000 true =
      { statusCode := 400, storageCalls := 0, contentType := none }
  ∧ uploadResume true "resume.pdf" 11534336 true =
      { statusCode := 400, storageCalls := 0, contentType := none }
  ∧ (uploadResume true "Resume.PDF" 1000 true).contentType = some "application/pdf"
  ∧ (uploadResume true "Resume.PDF" 1000 true).storageCalls = 1
  ∧ getPresignedURL true "text/plain" true =
      { statusCode := 400, storageCalls := 0, contentType := none } :=
  ⟨(upload_validation "virus.exe" 1000 true true "").1 (by decide),
   (upload_validation "resume.pdf" 11534336 true true "").2.1 (by decide),
   ((upload_validation "Resume.PDF" 1000 true true "").2.2.1
     "application/pdf" (by decide) (by decide)).1,
   ((upload_validation "Resume.PDF" 1000 true true "").2.2.1
     "application/pdf" (by decide) (by decide)).2,
   (upload_validation "" 0 true true "text/plain").2.2.2 (by decide)⟩

/- ----------------------------------------------------------------
   Claim C8: X-Total-Count equals the returned page size
   ---------------------------------------------------------------- -/

/-- Claim C8: every successful (status 200) job-listing response comes
from a gateway reply whose data payload is an object with a jobs array,
and its X-Total-Count header is exactly the length of that array - the
size of the page actually returned - while the body relays the payload
unchanged. -/
theorem listJobs_total_count_header (p : JobListParams) (gw : GatewayResult)
    (r : HttpResponse) (hr : (listJobs p gw).outcome = .response r)
    (h200 : r.statusCode = 200) :
    ∃ resp fields items, gw = .ok resp ∧ resp.data = Json.obj fields ∧
      alookup fields "jobs" = some (Json.arr items) ∧
      alookup r.headers "X-Total-Count" = some [toString items.length] ∧
      r.body = resp.data := by
  cases gw with
  | fail e =>
    rw [show (listJobs p (.fail e)).outcome =
        .response (respondError 500 "Failed to fetch jobs" (some e)) from rfl] at hr
    injection hr with hr2
    rw [← hr2] at h200
    simp [respondError, respondJSON] at h200
  | ok resp =>
    cases hd : resp.data with
    | obj fields =>
      cases ha : alookup fields "jobs" with
      | none =>
        simp only [listJobs, hd, ha] at hr
        exact absurd hr (by simp)
      | some v =>
        cases v with
        | arr items =>
          simp only [listJobs, hd, ha] at hr
          injection hr with hr2
          refine ⟨resp, fields, items, rfl, hd, ha, ?_, ?_⟩
          · rw [← hr2]; simp [alookup]
          · rw [← hr2, hd]
        | null =>
          simp only [listJobs, hd, ha] at hr
          exact absurd hr (by simp)
        | bool b =>
          simp only [listJobs, hd, ha] at hr
          exact absurd hr (by simp)
        | num n =>
          simp only [listJobs, hd, ha] at hr
          exact absurd hr (by simp)
        | str s =>
          simp only [listJobs, hd, ha] at hr
          exact absurd hr (by simp)
        | obj fs =>
          simp only [listJobs, hd, ha] at hr
          exact absurd hr (by simp)
    | null =>
      simp only [listJobs, hd] at hr
      exact absurd hr (by simp)
    | bool b =>
      simp only [listJobs, hd] at hr
      exact absurd hr (by simp)
    | num n =>
      simp only [listJobs, hd] at hr
      exact absurd hr (by simp)
    | str s =>
      simp only [listJobs, hd] at hr
      exact absurd hr (by simp)
    | arr items =>
      simp only [listJobs, hd] at hr
      exact absurd hr (by simp)

/-- The concrete page the C8 witness exercises: two jobs, counted as
two by the header. -/
def sampleJobsPage : HttpResponse :=
  { statusCode := 200
    headers := [("X-Total-Count", ["2"]), ("Content-Type", ["application/json"])]
    body := Json.obj [("jobs", Json.arr [Json.null, Json.bool true])] }

/-- Witness for C8: a two-element jobs page is reported as
X-Total-Count 2. -/
theorem listJobs_total_count_header_witness :
    ∃ resp fields items,
      (GatewayResult.ok ⟨Json.obj [("jobs", Json.arr [Json.null, Json.bool true])], []⟩ =
        GatewayResult.ok resp)
    ∧ resp.data = Json.obj fields
    ∧ alookup fields "jobs" = some (Json.arr items)
    ∧ alookup sampleJobsPage.headers "X-Total-Count" = some [toString items.length]
    ∧ sampleJobsPage.body = resp.data :=
  listJobs_total_count_header
    { q := "", department := "", location := "", employmentType := "",
      experienceLevel := "", remote := "", status := "", limit := "", offset := "" }
    (GatewayResult.ok ⟨Json.obj [("jobs", Json.arr [Json.null, Json.bool true])], []⟩)
    _ rfl rfl

/- ----------------------------------------------------------------
   Claim C9: the GraphQL passthrough proxy
   ---------------------------------------------------------------- -/

theorem hset_get_same (hs : List (String × List String)) (k v : String) :
    alookup (hset hs k v) k = some [v] := by
  induction hs with
  | nil => simp [hset, alookup]
  | cons p rest ih =>
    obtain ⟨k1, vs⟩ := p
    by_cases h : k1 = k <;> simp [hset, h, alookup, ih]

theorem hset_get_other (hs : List (String × List String)) (k v k' : String)
    (h : k' ≠ k) : alookup (hset hs k v) k' = alookup hs k' := by
  induction hs with
  | nil => simp [hset, alookup, Ne.symm h]
  | cons p rest ih =>
    obtain ⟨k1, vs⟩ := p
    by_cases h1 : k1 = k
    · simp [hset, h1, alookup, Ne.symm h]
    · by_cases h2 : k1 = k' <;> simp [hset, h1, h2, h, alookup, ih]

theorem hadd_fresh (hs : List (String × List String)) (k v : String)
    (h : ∀ p ∈ hs, p.1 ≠ k) : hadd hs k v = hs ++ [(k, [v])] := by
  induction hs with
  | nil => rfl
  | cons p rest ih =>
    obtain ⟨k1, vs⟩ := p
    have h1 : k1 ≠ k := h (k1, vs) (by simp)
    simp [hadd, h1]
    exact ih (fun q hq => h q (by simp [hq]))

theorem hadd_last (pre : List (String × List String)) (k : String)
    (acc : List String) (v : String) (h : ∀ p ∈ pre, p.1 ≠ k) :
    hadd (pre ++ [(k, acc)]) k v = pre ++ [(k, acc ++ [v])] := by
  induction pre with
  | nil => simp [hadd]
  | cons p rest ih =>
    obtain ⟨k1, vs⟩ := p
    have h1 : k1 ≠ k := h (k1, vs) (by simp)
    simp [hadd, h1]
    exact ih (fun q hq => h q (by simp [hq]))

theorem foldl_hadd_values (pre : List (String × List String)) (k : String)
    (acc vs : List String) (h : ∀ p ∈ pre, p.1 ≠ k) :
    vs.foldl (fun a v => hadd a k v) (pre ++ [(k, acc)]) = pre ++ [(k, acc ++ vs)] := by
  induction vs generalizing acc with
  | nil => simp
  | cons v rest ih =>
    simp only [List.foldl_cons]
    rw [hadd_last pre k acc v h, ih (acc ++ [v])]
    simp

theorem foldl_hadd_fresh (dst : List (String × List String)) (k : String)
    (vs : List String) (hfresh : ∀ p ∈ dst, p.1 ≠ k) (hne : vs ≠ []) :
    vs.foldl (fun a v => hadd a k v) dst = dst ++ [(k, vs)] := by
  cases vs with
  | nil => exact absurd rfl hne
  | cons v rest =>
    simp only [List.foldl_cons]
    rw [hadd_fresh dst k v hfresh, foldl_hadd_values dst k [v] rest hfresh]
    simp

theorem haddAll_fresh (dst src : List (String × List String))
    (hkeys : src.Pairwise (fun a b => a.1 ≠ b.1))
    (hvals : ∀ p ∈ src, p.2 ≠ [])
    (hfresh : ∀ p ∈ src, ∀ q ∈ dst, p.1 ≠ q.1) :
    haddAll dst src = dst ++ src := by
  induction src generalizing dst with
  | nil => simp [haddAll]
  | cons p rest ih =>
    obtain ⟨k, vs⟩ := p
    obtain ⟨hhead, htail⟩ := List.pairwise_cons.mp hkeys
    have hstep : haddAll dst ((k, vs) :: rest) =
        haddAll (vs.foldl (fun a v => hadd a k v) dst) rest := rfl
    rw [hstep,
        foldl_hadd_fresh dst k vs
          (fun q hq => Ne.symm (hfresh (k, vs) (by simp) q hq))
          (hvals (k, vs) (by simp)),
        ih (dst ++ [(k, vs)]) htail
          (fun q hq => hvals q (by simp [hq]))
          (fun q hq q2 hq2 => ?_)]
    · simp
    · rcases List.mem_append.mp hq2 with h2 | h2
      · exact hfresh q (by simp [hq]) q2 h2
      · have : q2 = (k, vs) := by simpa using h2
        subst this
        exact Ne.symm (hhead q hq)


/-- Counterexample to C9 as stated: the upstream reply carries
Content-Type text/plain, but the proxy relays Content-Type
application/json, so the upstream headers are not mirrored back
verbatim. -/
theorem proxy_headers_not_verbatim :
    (proxyHandler "querybody" true "" "" (.reply
      { statusCode := 200, headers := [("Content-Type", ["text/plain"])],
        body := "ok" })).downstream
      = .relayed 200 [("Content-Type", ["application/json"])] "ok"
  ∧ ((.relayed 200 [("Content-Type", ["application/json"])] "ok" : ProxyDownstream) ≠
     (.relayed 200 [("Content-Type", ["text/plain"])] "ok" : ProxyDownstream)) :=
  ⟨rfl, by decide⟩

/-- Claim C9 (amended): for every parsed passthrough request that
reaches upstream, the exact client body bytes are forwarded, the
upstream status code and body are mirrored, every upstream header
other than Content-Type is mirrored, Content-Type is always rewritten
to application/json, and a non-empty inbound Authorization value is
forwarded upstream as X-User-Token. -/
theorem proxy_forwarding (body authHeader apiKey : String) (r : UpstreamReply)
    (hkeys : r.headers.Pairwise (fun a b => a.1 ≠ b.1))
    (hvals : ∀ p ∈ r.headers, p.2 ≠ []) :
    (∃ s, (proxyHandler body true authHeader apiKey (.reply r)).sent = some s ∧
      s.body = body ∧
      (authHeader ≠ "" → alookup s.headers "X-User-Token" = some [authHeader]))
  ∧ (∃ hs, (proxyHandler body true authHeader apiKey (.reply r)).downstream =
        .relayed r.statusCode hs r.body ∧
      alookup hs "Content-Type" = some ["application/json"] ∧
      (∀ k, k ≠ "Content-Type" → alookup hs k = alookup r.headers k)) := by
  constructor
  · refine ⟨{ body := body, headers := proxySentHeaders authHeader apiKey },
      rfl, rfl, fun ha => ?_⟩
    simp only [proxySentHeaders]
    rw [if_pos ha]
    exact hset_get_same _ _ _
  · refine ⟨hset (haddAll [] r.headers) "Content-Type" "application/json",
      rfl, hset_get_same _ _ _, fun k hk => ?_⟩
    rw [hset_get_other _ _ _ _ hk,
        haddAll_fresh [] r.headers hkeys hvals (by simp)]
    simp

/-- Witness for the amended C9 at a concrete exchange carrying one
extra upstream header and an inbound bearer token. -/
theorem proxy_forwarding_witness :
    (∃ s, (proxyHandler "querybody2" true "Bearer tok" "svc" (.reply
        { statusCode := 201, headers := [("X-Req-Id", ["7"])],
          body := "done" })).sent = some s ∧
      s.body = "querybody2" ∧
      ("Bearer tok" ≠ "" → alookup s.headers "X-User-Token" = some ["Bearer tok"]))
  ∧ (∃ hs, (proxyHandler "querybody2" true "Bearer tok" "svc" (.reply
        { statusCode := 201, headers := [("X-Req-Id", ["7"])],
          body := "done" })).downstream = .relayed 201 hs "done" ∧
      alookup hs "Content-Type" = some ["application/json"] ∧
      (∀ k, k ≠ "Content-Type" →
        alookup hs k = alookup [("X-Req-Id", ["7"])] k)) :=
  proxy_forwarding "querybody2" "Bearer tok" "svc"
    { statusCode := 201, headers := [("X-Req-Id", ["7"])], body := "done" }
    (by simp) (by simp)

end HrRecruiting
